import Mathlib

/-!
# Verification of `httpclient` (src/client.go)

A shallow embedding of `ApiClient.DoPost`, `ApiClient.DoGet` and
`ApiClient.doHTTP`.

* A Go `string` and a Go `[]byte` are both byte sequences; the conversions
  `string(b)` and `bytes.NewBufferString(s)` keep the bytes as they are.
* The two injected collaborators (`httpClient`, `bodyReader`) and the `Close`
  method of the response body are arbitrary functions over an abstract world
  state `σ`, threaded through the call in program order.
* Every collaborator call made by `doHTTP` is appended to a trace, so that
  "is invoked exactly once", "is never invoked" and "is closed after it was
  read" are statements about the returned trace.
* Reading `resp.StatusCode` through a nil `resp` is the outcome `nilDeref`.
-/

namespace httpclient

/-! ## Go values -/

/-- A Go `string`: an immutable sequence of bytes. -/
abbrev GoString := List UInt8

/-- A Go `[]byte`. -/
abbrev ByteSlice := List UInt8

/-- A string literal of the source, as its UTF-8 bytes. -/
def goLit (s : String) : GoString := s.toUTF8.data.toList

/-- The conversion `string(b)` of line 70: the same bytes, in the same order. -/
def stringOfBytes (b : ByteSlice) : GoString := b

/-- A non-nil Go `error` value. `errorString` is what `errors.New` builds;
`foreignError` stands for any other implementation of the interface (a
network error of the transport, for instance), told apart by a tag. -/
inductive GoError where
  | errorString (text : GoString)
  | foreignError (tag : Nat) (text : GoString)
  deriving DecidableEq

/-- The method `Error()` of the `error` interface. -/
def GoError.Error : GoError → GoString
  | GoError.errorString text => text
  | GoError.foreignError _ text => text

/-- The library function `errors.New`. -/
def errorsNew (text : GoString) : GoError := GoError.errorString text

/-- An `io.ReadCloser` value: a handle; what reading or closing it does is
decided by the collaborators and the world state. -/
abbrev ReadCloser := Nat

/-- The two fields of `http.Response` that `doHTTP` reads. `Body` is `none`
for a nil interface value. -/
structure Response where
  StatusCode : Int
  Body : Option ReadCloser
  deriving DecidableEq

/-! ## `fmt.Sprintf`, restricted to the verb `%d` -/

/-- Decimal rendering of an integer as `%d` prints it: a minus sign for a
negative number, then the digits, no padding. -/
def fmtInteger (n : Int) : GoString :=
  match n with
  | Int.ofNat m => goLit (String.mk (Nat.toDigits 10 m))
  | Int.negSucc m => goLit "-" ++ goLit (String.mk (Nat.toDigits 10 (m + 1)))

/-- What `Sprintf` appends for operands left over at the end of the format. -/
def fmtExtra : List Int → GoString
  | [] => []
  | [a] => goLit "int=" ++ fmtInteger a
  | a :: b :: rest => goLit "int=" ++ fmtInteger a ++ goLit ", " ++ fmtExtra (b :: rest)

/-- The library function `fmt.Sprintf` for `int` operands and format strings
whose only verb is `%d` (the format strings of this package). `%d` prints the
next operand, or `%!d(MISSING)` when none is left; operands left over are
reported as `%!(EXTRA ...)`; a `%` that ends the format prints `%!(NOVERB)`.
Byte 37 is `%`, byte 100 is `d`. Other verbs are outside this model and are
copied through. -/
def Sprintf : GoString → List Int → GoString
  | [], [] => []
  | [], a :: rest => goLit "%!(EXTRA " ++ fmtExtra (a :: rest) ++ goLit ")"
  | [c], args =>
    if c = 37 then goLit "%!(NOVERB)" ++ Sprintf [] args
    else c :: Sprintf [] args
  | c :: d :: fmt, args =>
    if c = 37 ∧ d = 100 then
      match args with
      | a :: rest => fmtInteger a ++ Sprintf fmt rest
      | [] => goLit "%!d(MISSING)" ++ Sprintf fmt []
    else c :: Sprintf (d :: fmt) args

/-! ## Constants of the source -/

/-- Line 15. -/
def wrongStatusErrorFormat : GoString :=
  goLit "apiclient: Received non-200 status code from api endpoint: %d"

/-- The text of `wrongStatusErrorFormat` before its verb. -/
def wrongStatusErrorText : GoString :=
  goLit "apiclient: Received non-200 status code from api endpoint: "

/-- The constant `http.MethodPost`. -/
def MethodPost : GoString := goLit "POST"

/-- The constant `http.MethodGet`. -/
def MethodGet : GoString := goLit "GET"

/-! ## Collaborators -/

/-- The interface `httpClient` (lines 77-80). The third argument of `Post` is
the content of the `io.Reader` it is given. Each method returns the pair
`(resp, err)` of the Go method, either of which may be nil, and the next
world state. -/
structure httpClient (σ : Type) where
  Post : GoString → GoString → GoString → σ → (Option Response × Option GoError) × σ
  Get : GoString → σ → (Option Response × Option GoError) × σ

/-- The interface `bodyReader` (lines 82-84). -/
structure bodyReader (σ : Type) where
  ReadAll : ReadCloser → σ → (ByteSlice × Option GoError) × σ

/-- The struct `ApiClient` (lines 18-21), together with the behaviour of
`Close()` on the response bodies that its transport hands out (the error that
`Close` returns is dropped by the `defer` statement). -/
structure ApiClient (σ : Type) where
  httpClient : httpClient σ
  bodyReader : bodyReader σ
  Close : ReadCloser → σ → σ

/-! ## Observations -/

/-- A call made by `doHTTP` on a collaborator. -/
inductive Event where
  | post (uri contentType body : GoString)
  | get (uri : GoString)
  | readAll (r : ReadCloser)
  | close (r : ReadCloser)
  deriving DecidableEq

/-- Calls on the transport. -/
def Event.isTransport : Event → Bool
  | Event.post _ _ _ => true
  | Event.get _ => true
  | _ => false

/-- Calls on the body reader. -/
def Event.isReadAll : Event → Bool
  | Event.readAll _ => true
  | _ => false

/-- Calls of `Close` on a response body. -/
def Event.isClose : Event → Bool
  | Event.close _ => true
  | _ => false

/-- The calls made on the transport, oldest first. -/
def transportCalls (tr : List Event) : List Event := tr.filter Event.isTransport

/-- The calls made on the body reader, oldest first. -/
def readerCalls (tr : List Event) : List Event := tr.filter Event.isReadAll

/-- The calls of `Close`, oldest first. -/
def closeCalls (tr : List Event) : List Event := tr.filter Event.isClose

/-- How a call ends: it returns `(message, err)`, or it dereferences a nil
`*http.Response`. -/
inductive Outcome where
  | ret (message : GoString) (err : Option GoError)
  | nilDeref
  deriving DecidableEq

/-- A finished call: how it ended, the world it left, and the collaborator
calls it made, oldest first. -/
structure Run (σ : Type) where
  outcome : Outcome
  world : σ
  trace : List Event

/-! ## The program -/

/-- Lines 46-51 of `doHTTP`: the transport call chosen by `method`. The result
is `resp`, `err`, the next world and the call made. With any other method no
call is made and `resp` and `err` keep their zero value nil. -/
def callTransport {σ : Type} (a : ApiClient σ) (uri method body : GoString) (w : σ) :
    Option Response × Option GoError × σ × List Event :=
  if method = MethodPost then
    let mimeType := goLit "application/json"
    let r := a.httpClient.Post uri mimeType body w
    (r.1.1, r.1.2, r.2, [Event.post uri mimeType body])
  else if method = MethodGet then
    let r := a.httpClient.Get uri w
    (r.1.1, r.1.2, r.2, [Event.get uri])
  else
    (none, none, w, [])

/-- Lines 52-73 of `doHTTP`: what happens once the transport has answered
`(resp, err)` in world `w` after the calls `tr`. The deferred `Close` of line
63 runs when the function returns, hence after `ReadAll`, on both returns that
follow it. -/
def afterTransport {σ : Type} (a : ApiClient σ) (resp : Option Response)
    (err : Option GoError) (w : σ) (tr : List Event) : Run σ :=
  let message : GoString := []
  match err with
  | some e => ⟨Outcome.ret message (some e), w, tr⟩
  | none =>
    match resp with
    | none => ⟨Outcome.nilDeref, w, tr⟩
    | some resp =>
      if resp.StatusCode ≠ 200 then
        let errMessage := Sprintf wrongStatusErrorFormat [resp.StatusCode]
        ⟨Outcome.ret message (some (errorsNew errMessage)), w, tr⟩
      else
        match resp.Body with
        | some stream =>
          let rd := a.bodyReader.ReadAll stream w
          let closed := a.Close stream rd.2
          let tr2 := tr ++ [Event.readAll stream, Event.close stream]
          match rd.1.2 with
          | some readErr => ⟨Outcome.ret message (some readErr), closed, tr2⟩
          | none => ⟨Outcome.ret (stringOfBytes rd.1.1) none, closed, tr2⟩
        | none => ⟨Outcome.ret message none, w, tr⟩

/-- The method `ApiClient.doHTTP` (lines 41-74). -/
def doHTTP {σ : Type} (a : ApiClient σ) (uri method body : GoString) (w : σ) : Run σ :=
  let t := callTransport a uri method body w
  afterTransport a t.1 t.2.1 t.2.2.1 t.2.2.2

/-- The method `ApiClient.DoPost` (lines 32-34). -/
def DoPost {σ : Type} (a : ApiClient σ) (uri body : GoString) (w : σ) : Run σ :=
  doHTTP a uri MethodPost body w

/-- The method `ApiClient.DoGet` (lines 37-39). -/
def DoGet {σ : Type} (a : ApiClient σ) (uri : GoString) (w : σ) : Run σ :=
  doHTTP a uri MethodGet [] w

/-! ## Test doubles

The world of the doubles is the number of collaborator calls made so far. -/

/-- A transport that answers every `Post` with `post` and every `Get` with
`get`. -/
def stubTransport (post get : Option Response × Option GoError) : httpClient Nat where
  Post := fun _ _ _ w => (post, w + 1)
  Get := fun _ w => (get, w + 1)

/-- A body reader that answers every call with `read`. -/
def stubReader (read : ByteSlice × Option GoError) : bodyReader Nat where
  ReadAll := fun _ w => (read, w + 1)

/-- A client built from the two stubs. -/
def stubClient (post get : Option Response × Option GoError)
    (read : ByteSlice × Option GoError) : ApiClient Nat where
  httpClient := stubTransport post get
  bodyReader := stubReader read
  Close := fun _ w => w + 1

/-- The URI of the end-to-end scenarios. -/
def exampleURI : GoString := goLit "http://example.com"

/-- The request body of the end-to-end scenarios. -/
def expectedAction : GoString :=
  goLit "\x7b\"action\":\"deckNamesAndIds\",\"version\":6\x7d"

/-- The response body of the end-to-end scenarios. -/
def responseJson : ByteSlice :=
  goLit "\x7b\"result\":\x7b\"Default\":1\x7d,\"error\":null\x7d"

/-- The reader failure of `errorBodyReader` in the tests. -/
def bodyReadingError : GoError := errorsNew (goLit "error reading body")

/-- The transport failure used in the tests. -/
def mockErr : GoError := errorsNew (goLit "mock: simple error for testing")

/-! ## Lemmas on the library model -/

theorem Sprintf_cons_ne (c d : UInt8) (fmt : GoString) (args : List Int) (h : c ≠ 37) :
    Sprintf (c :: d :: fmt) args = c :: Sprintf (d :: fmt) args := by
  simp [Sprintf, h]

theorem Sprintf_verb_d (p : GoString) (a : Int) (h : (37 : UInt8) ∉ p) :
    Sprintf (p ++ [37, 100]) [a] = p ++ fmtInteger a := by
  induction p with
  | nil => simp [Sprintf]
  | cons c p ih =>
    have hc : c ≠ 37 := fun e => h (by simp [e])
    have hp : (37 : UInt8) ∉ p := fun e => h (by simp [e])
    cases p with
    | nil =>
      have := ih hp
      simp only [List.nil_append] at this
      simp only [List.cons_append, List.nil_append]
      rw [Sprintf_cons_ne _ _ _ _ hc, this]
    | cons d q =>
      have := ih hp
      simp only [List.cons_append] at this ⊢
      rw [Sprintf_cons_ne _ _ _ _ hc, this]

theorem wrongStatusErrorFormat_eq : wrongStatusErrorFormat = wrongStatusErrorText ++ [37, 100] := by
  decide

theorem wrongStatusErrorText_no_verb : (37 : UInt8) ∉ wrongStatusErrorText := by
  decide

/-- Line 57: the formatted message is the fixed text followed by the code in decimal. -/
theorem Sprintf_wrongStatus (c : Int) :
    Sprintf wrongStatusErrorFormat [c] = wrongStatusErrorText ++ fmtInteger c := by
  rw [wrongStatusErrorFormat_eq]
  exact Sprintf_verb_d _ _ wrongStatusErrorText_no_verb

theorem MethodGet_ne_MethodPost : MethodGet ≠ MethodPost := by decide

theorem fmtInteger_500 : fmtInteger 500 = goLit "500" := by decide

theorem fmtInteger_neg : fmtInteger (-3) = goLit "-3" := by decide

theorem Sprintf_wrongStatus_500 : Sprintf wrongStatusErrorFormat [500] =
    goLit "apiclient: Received non-200 status code from api endpoint: 500" := by decide

/-! ## Unfolding the two entry points -/

theorem DoPost_eq {σ : Type} (a : ApiClient σ) (uri body : GoString) (w : σ) :
    DoPost a uri body w =
      afterTransport a (a.httpClient.Post uri (goLit "application/json") body w).1.1
        (a.httpClient.Post uri (goLit "application/json") body w).1.2
        (a.httpClient.Post uri (goLit "application/json") body w).2
        [Event.post uri (goLit "application/json") body] := by
  simp [DoPost, doHTTP, callTransport]

theorem doHTTP_get_eq {σ : Type} (a : ApiClient σ) (uri body : GoString) (w : σ) :
    doHTTP a uri MethodGet body w =
      afterTransport a (a.httpClient.Get uri w).1.1 (a.httpClient.Get uri w).1.2
        (a.httpClient.Get uri w).2 [Event.get uri] := by
  simp [doHTTP, callTransport, MethodGet_ne_MethodPost]

theorem DoGet_eq {σ : Type} (a : ApiClient σ) (uri : GoString) (w : σ) :
    DoGet a uri w =
      afterTransport a (a.httpClient.Get uri w).1.1 (a.httpClient.Get uri w).1.2
        (a.httpClient.Get uri w).2 [Event.get uri] := by
  simp [DoGet, doHTTP_get_eq]

/-- Every path through lines 52-73 keeps the transport calls made before. -/
theorem transportCalls_afterTransport {σ : Type} (a : ApiClient σ) (resp : Option Response)
    (err : Option GoError) (w : σ) (tr : List Event) :
    transportCalls (afterTransport a resp err w tr).trace = transportCalls tr := by
  unfold afterTransport
  cases err with
  | some e => rfl
  | none =>
    cases resp with
    | none => rfl
    | some r =>
      by_cases hs : r.StatusCode = 200
      · cases hb : r.Body with
        | none => simp [hs, hb]
        | some st =>
          cases hr : (a.bodyReader.ReadAll st w).1.2 <;>
            simp [hs, hb, hr, transportCalls, Event.isTransport]
      · simp [hs]

/-! ## Successful calls -/

/-- C1: if `Post` answers with a nil error and a response of status 200 with a
body stream, and `ReadAll` answers on that stream with bytes `b` and a nil
error, then `DoPost` returns the text `string(b)`, whose bytes are those of
`b` unchanged, together with a nil error. -/
theorem DoPost_returns_body_text {σ : Type} (a : ApiClient σ) (uri body : GoString)
    (w w1 w2 : σ) (stream : ReadCloser) (b : ByteSlice)
    (hpost : a.httpClient.Post uri (goLit "application/json") body w =
      ((some ⟨200, some stream⟩, none), w1))
    (hread : a.bodyReader.ReadAll stream w1 = ((b, none), w2)) :
    (DoPost a uri body w).outcome = Outcome.ret (stringOfBytes b) none ∧
      stringOfBytes b = b := by
  refine ⟨?_, rfl⟩
  rw [DoPost_eq, hpost]
  simp [afterTransport, hread]

/-- The end-to-end scenario of the specification for C1. -/
theorem DoPost_returns_body_text_witness :
    (stubClient (some ⟨200, some 7⟩, none) (none, none) (responseJson, none)).httpClient.Post
        exampleURI (goLit "application/json") expectedAction 0 =
      ((some ⟨200, some 7⟩, none), 1) ∧
    (stubClient (some ⟨200, some 7⟩, none) (none, none) (responseJson, none)).bodyReader.ReadAll
        7 1 = ((responseJson, none), 2) ∧
    (DoPost (stubClient (some ⟨200, some 7⟩, none) (none, none) (responseJson, none))
        exampleURI expectedAction 0).outcome = Outcome.ret (stringOfBytes responseJson) none ∧
    stringOfBytes responseJson = responseJson :=
  ⟨rfl, rfl, DoPost_returns_body_text _ exampleURI expectedAction 0 1 2 7 responseJson rfl rfl⟩

/-! ## Failures -/

/-- C2: if the transport answers with a nil error and a response whose status
code `c` is not 200, then `DoPost` (for `Post`) and `DoGet` (for `Get`) return
empty text and a non-nil error whose message is the fixed text followed by `c`
in decimal, and the body reader is not called. -/
theorem non200_status_error {σ : Type} (a : ApiClient σ) (uri body : GoString) (w w1 : σ)
    (c : Int) (stream : Option ReadCloser) (hc : c ≠ 200) :
    (a.httpClient.Post uri (goLit "application/json") body w =
        ((some ⟨c, stream⟩, none), w1) →
      (∃ e, (DoPost a uri body w).outcome = Outcome.ret [] (some e) ∧
        e.Error = goLit "apiclient: Received non-200 status code from api endpoint: " ++
          fmtInteger c) ∧
      readerCalls (DoPost a uri body w).trace = []) ∧
    (a.httpClient.Get uri w = ((some ⟨c, stream⟩, none), w1) →
      (∃ e, (DoGet a uri w).outcome = Outcome.ret [] (some e) ∧
        e.Error = goLit "apiclient: Received non-200 status code from api endpoint: " ++
          fmtInteger c) ∧
      readerCalls (DoGet a uri w).trace = []) := by
  constructor
  · intro h
    rw [DoPost_eq, h]
    simp [afterTransport, hc, Sprintf_wrongStatus, errorsNew, GoError.Error, readerCalls,
      Event.isReadAll, wrongStatusErrorText]
  · intro h
    rw [DoGet_eq, h]
    simp [afterTransport, hc, Sprintf_wrongStatus, errorsNew, GoError.Error, readerCalls,
      Event.isReadAll, wrongStatusErrorText]

/-- The status-500 scenario of the tests, for C2. -/
theorem non200_status_error_witness :
    (500 : Int) ≠ 200 ∧
    ((∃ e, (DoPost (stubClient (some ⟨500, some 7⟩, none) (some ⟨500, some 7⟩, none)
          (responseJson, none)) exampleURI expectedAction 0).outcome = Outcome.ret [] (some e) ∧
        e.Error = goLit "apiclient: Received non-200 status code from api endpoint: " ++
          fmtInteger 500) ∧
      readerCalls (DoPost (stubClient (some ⟨500, some 7⟩, none) (some ⟨500, some 7⟩, none)
          (responseJson, none)) exampleURI expectedAction 0).trace = []) ∧
    ((∃ e, (DoGet (stubClient (some ⟨500, some 7⟩, none) (some ⟨500, some 7⟩, none)
          (responseJson, none)) exampleURI 0).outcome = Outcome.ret [] (some e) ∧
        e.Error = goLit "apiclient: Received non-200 status code from api endpoint: " ++
          fmtInteger 500) ∧
      readerCalls (DoGet (stubClient (some ⟨500, some 7⟩, none) (some ⟨500, some 7⟩, none)
          (responseJson, none)) exampleURI 0).trace = []) :=
  ⟨by decide,
    (non200_status_error (stubClient (some ⟨500, some 7⟩, none) (some ⟨500, some 7⟩, none)
      (responseJson, none)) exampleURI expectedAction 0 1 500 (some 7) (by decide)).1 rfl,
    (non200_status_error (stubClient (some ⟨500, some 7⟩, none) (some ⟨500, some 7⟩, none)
      (responseJson, none)) exampleURI expectedAction 0 1 500 (some 7) (by decide)).2 rfl⟩

/-- C3: if the transport call (`Post` for `DoPost`, `Get` for `DoGet`) answers
with a non-nil error `e`, then whatever response comes with it (none, or one of
any status) the call returns empty text and the error `e` itself, and the body
reader is not called. -/
theorem transport_error_propagated {σ : Type} (a : ApiClient σ) (uri body : GoString)
    (w w1 : σ) (resp : Option Response) (e : GoError) :
    (a.httpClient.Post uri (goLit "application/json") body w = ((resp, some e), w1) →
      (DoPost a uri body w).outcome = Outcome.ret [] (some e) ∧
      readerCalls (DoPost a uri body w).trace = []) ∧
    (a.httpClient.Get uri w = ((resp, some e), w1) →
      (DoGet a uri w).outcome = Outcome.ret [] (some e) ∧
      readerCalls (DoGet a uri w).trace = []) := by
  constructor
  · intro h
    rw [DoPost_eq, h]
    simp [afterTransport, readerCalls, Event.isReadAll]
  · intro h
    rw [DoGet_eq, h]
    simp [afterTransport, readerCalls, Event.isReadAll]

/-- The failing transport of the tests, which answers with a status-200
response next to its error, for C3. -/
theorem transport_error_propagated_witness :
    ((DoPost (stubClient (some ⟨200, some 7⟩, some mockErr) (some ⟨200, some 7⟩, some mockErr)
        (responseJson, none)) exampleURI expectedAction 0).outcome =
        Outcome.ret [] (some mockErr) ∧
      readerCalls (DoPost (stubClient (some ⟨200, some 7⟩, some mockErr)
        (some ⟨200, some 7⟩, some mockErr) (responseJson, none))
        exampleURI expectedAction 0).trace = []) ∧
    ((DoGet (stubClient (some ⟨200, some 7⟩, some mockErr) (some ⟨200, some 7⟩, some mockErr)
        (responseJson, none)) exampleURI 0).outcome = Outcome.ret [] (some mockErr) ∧
      readerCalls (DoGet (stubClient (some ⟨200, some 7⟩, some mockErr)
        (some ⟨200, some 7⟩, some mockErr) (responseJson, none)) exampleURI 0).trace = []) :=
  ⟨(transport_error_propagated (stubClient (some ⟨200, some 7⟩, some mockErr)
      (some ⟨200, some 7⟩, some mockErr) (responseJson, none)) exampleURI expectedAction 0 1
      (some ⟨200, some 7⟩) mockErr).1 rfl,
    (transport_error_propagated (stubClient (some ⟨200, some 7⟩, some mockErr)
      (some ⟨200, some 7⟩, some mockErr) (responseJson, none)) exampleURI expectedAction 0 1
      (some ⟨200, some 7⟩) mockErr).2 rfl⟩

/-- C4: if the transport answers with a nil error and a response of status 200
with a body stream, and `ReadAll` fails on that stream with error `r` (whatever
bytes come with it), then the call returns empty text and the error `r` itself,
hence an error with the reader's message. -/
theorem body_read_error_propagated {σ : Type} (a : ApiClient σ) (uri body : GoString)
    (w w1 w2 : σ) (stream : ReadCloser) (b : ByteSlice) (r : GoError)
    (hread : a.bodyReader.ReadAll stream w1 = ((b, some r), w2)) :
    (a.httpClient.Post uri (goLit "application/json") body w =
        ((some ⟨200, some stream⟩, none), w1) →
      (DoPost a uri body w).outcome = Outcome.ret [] (some r)) ∧
    (a.httpClient.Get uri w = ((some ⟨200, some stream⟩, none), w1) →
      (DoGet a uri w).outcome = Outcome.ret [] (some r)) := by
  constructor
  · intro h
    rw [DoPost_eq, h]
    simp [afterTransport, hread]
  · intro h
    rw [DoGet_eq, h]
    simp [afterTransport, hread]

/-- The failing reader of the tests, here returning bytes next to its error,
for C4. -/
theorem body_read_error_propagated_witness :
    (stubClient (some ⟨200, some 7⟩, none) (some ⟨200, some 7⟩, none)
        (responseJson, some bodyReadingError)).bodyReader.ReadAll 7 1 =
      ((responseJson, some bodyReadingError), 2) ∧
    (DoPost (stubClient (some ⟨200, some 7⟩, none) (some ⟨200, some 7⟩, none)
        (responseJson, some bodyReadingError)) exampleURI expectedAction 0).outcome =
      Outcome.ret [] (some bodyReadingError) ∧
    (DoGet (stubClient (some ⟨200, some 7⟩, none) (some ⟨200, some 7⟩, none)
        (responseJson, some bodyReadingError)) exampleURI 0).outcome =
      Outcome.ret [] (some bodyReadingError) :=
  ⟨rfl,
    (body_read_error_propagated (stubClient (some ⟨200, some 7⟩, none)
      (some ⟨200, some 7⟩, none) (responseJson, some bodyReadingError)) exampleURI
      expectedAction 0 1 2 7 responseJson bodyReadingError rfl).1 rfl,
    (body_read_error_propagated (stubClient (some ⟨200, some 7⟩, none)
      (some ⟨200, some 7⟩, none) (responseJson, some bodyReadingError)) exampleURI
      expectedAction 0 1 2 7 responseJson bodyReadingError rfl).2 rfl⟩

/-! ## Calls made on the transport -/

/-- C5: for every URI `u` and every string `b`, `DoPost u b` calls the
transport exactly once, and that call is `Post` with URI `u`, content type
`application/json` and a body whose content is `b`; `Get` is not called. -/
theorem DoPost_calls_Post_once {σ : Type} (a : ApiClient σ) (u b : GoString) (w : σ) :
    transportCalls (DoPost a u b w).trace = [Event.post u (goLit "application/json") b] ∧
      ∀ u2, Event.get u2 ∉ (DoPost a u b w).trace := by
  have ht := transportCalls_afterTransport a
    (a.httpClient.Post u (goLit "application/json") b w).1.1
    (a.httpClient.Post u (goLit "application/json") b w).1.2
    (a.httpClient.Post u (goLit "application/json") b w).2
    [Event.post u (goLit "application/json") b]
  rw [← DoPost_eq] at ht
  have hone : transportCalls (DoPost a u b w).trace =
      [Event.post u (goLit "application/json") b] := by
    rw [ht]
    simp [transportCalls, Event.isTransport]
  refine ⟨hone, ?_⟩
  intro u2 hmem
  have hin : Event.get u2 ∈ transportCalls (DoPost a u b w).trace := by
    unfold transportCalls
    exact List.mem_filter.mpr ⟨hmem, rfl⟩
  rw [hone] at hin
  simp at hin

/-- C6: a GET ignores the body it is given: with method GET and bodies `b1`
and `b2`, `doHTTP` makes the same calls and returns the same result, leaving
the same world; its only transport call is one `Get u`, which carries no body,
and no `Post`. In particular `DoGet u` calls `Get u` exactly once and nothing
else on the transport. -/
theorem doHTTP_get_ignores_body {σ : Type} (a : ApiClient σ) (u b1 b2 : GoString) (w : σ) :
    doHTTP a u MethodGet b1 w = doHTTP a u MethodGet b2 w ∧
      transportCalls (doHTTP a u MethodGet b1 w).trace = [Event.get u] ∧
      transportCalls (DoGet a u w).trace = [Event.get u] := by
  refine ⟨?_, ?_, ?_⟩
  · rw [doHTTP_get_eq, doHTTP_get_eq]
  · rw [doHTTP_get_eq, transportCalls_afterTransport]
    simp [transportCalls, Event.isTransport]
  · rw [DoGet_eq, transportCalls_afterTransport]
    simp [transportCalls, Event.isTransport]

/-! ## The response body as a resource -/

/-- C7: if the transport answers with a nil error and a response of status 200
with a body stream, the call closes that stream exactly once, after `ReadAll`
was called on it, whatever `ReadAll` answers (success or failure): the calls
are the transport call, `ReadAll` on the stream, `Close` on the stream, in this
order, and `Close` acts on the world that `ReadAll` left. -/
theorem body_closed_once_after_read {σ : Type} (a : ApiClient σ) (uri body : GoString)
    (w w1 : σ) (stream : ReadCloser) :
    (a.httpClient.Post uri (goLit "application/json") body w =
        ((some ⟨200, some stream⟩, none), w1) →
      (DoPost a uri body w).trace =
        [Event.post uri (goLit "application/json") body, Event.readAll stream,
          Event.close stream] ∧
      closeCalls (DoPost a uri body w).trace = [Event.close stream] ∧
      (DoPost a uri body w).world = a.Close stream (a.bodyReader.ReadAll stream w1).2) ∧
    (a.httpClient.Get uri w = ((some ⟨200, some stream⟩, none), w1) →
      (DoGet a uri w).trace = [Event.get uri, Event.readAll stream, Event.close stream] ∧
      closeCalls (DoGet a uri w).trace = [Event.close stream] ∧
      (DoGet a uri w).world = a.Close stream (a.bodyReader.ReadAll stream w1).2) := by
  constructor
  · intro h
    rw [DoPost_eq, h]
    cases hr : (a.bodyReader.ReadAll stream w1).1.2 <;>
      simp [afterTransport, hr, closeCalls, Event.isClose]
  · intro h
    rw [DoGet_eq, h]
    cases hr : (a.bodyReader.ReadAll stream w1).1.2 <;>
      simp [afterTransport, hr, closeCalls, Event.isClose]

/-- A `DoPost` whose reader succeeds and a `DoGet` whose reader fails, for C7. -/
theorem body_closed_once_after_read_witness :
    ((DoPost (stubClient (some ⟨200, some 7⟩, none) (none, none) (responseJson, none))
        exampleURI expectedAction 0).trace =
        [Event.post exampleURI (goLit "application/json") expectedAction, Event.readAll 7,
          Event.close 7] ∧
      closeCalls (DoPost (stubClient (some ⟨200, some 7⟩, none) (none, none) (responseJson, none))
        exampleURI expectedAction 0).trace = [Event.close 7] ∧
      (DoPost (stubClient (some ⟨200, some 7⟩, none) (none, none) (responseJson, none))
        exampleURI expectedAction 0).world =
        (stubClient (some ⟨200, some 7⟩, none) (none, none) (responseJson, none)).Close 7
          ((stubClient (some ⟨200, some 7⟩, none) (none, none) (responseJson, none)).bodyReader.ReadAll
            7 1).2) ∧
    ((DoGet (stubClient (none, none) (some ⟨200, some 7⟩, none) ([], some bodyReadingError))
        exampleURI 0).trace = [Event.get exampleURI, Event.readAll 7, Event.close 7] ∧
      closeCalls (DoGet (stubClient (none, none) (some ⟨200, some 7⟩, none) ([], some bodyReadingError))
        exampleURI 0).trace = [Event.close 7] ∧
      (DoGet (stubClient (none, none) (some ⟨200, some 7⟩, none) ([], some bodyReadingError))
        exampleURI 0).world =
        (stubClient (none, none) (some ⟨200, some 7⟩, none) ([], some bodyReadingError)).Close 7
          ((stubClient (none, none) (some ⟨200, some 7⟩, none) ([], some bodyReadingError)).bodyReader.ReadAll
            7 1).2) :=
  ⟨(body_closed_once_after_read
      (stubClient (some ⟨200, some 7⟩, none) (none, none) (responseJson, none))
      exampleURI expectedAction 0 1 7).1 rfl,
    (body_closed_once_after_read
      (stubClient (none, none) (some ⟨200, some 7⟩, none) ([], some bodyReadingError))
      exampleURI expectedAction 0 1 7).2 rfl⟩

/-- C9: if the transport answers with a nil error and a response of status 200
whose body is nil, then `DoPost` and `DoGet` return empty text and a nil error,
the body reader is not called and nothing is closed. -/
theorem absent_body_returns_empty {σ : Type} (a : ApiClient σ) (uri body : GoString)
    (w w1 : σ) :
    (a.httpClient.Post uri (goLit "application/json") body w =
        ((some ⟨200, none⟩, none), w1) →
      (DoPost a uri body w).outcome = Outcome.ret [] none ∧
      readerCalls (DoPost a uri body w).trace = [] ∧
      closeCalls (DoPost a uri body w).trace = []) ∧
    (a.httpClient.Get uri w = ((some ⟨200, none⟩, none), w1) →
      (DoGet a uri w).outcome = Outcome.ret [] none ∧
      readerCalls (DoGet a uri w).trace = [] ∧
      closeCalls (DoGet a uri w).trace = []) := by
  constructor
  · intro h
    rw [DoPost_eq, h]
    simp [afterTransport, readerCalls, closeCalls, Event.isReadAll, Event.isClose]
  · intro h
    rw [DoGet_eq, h]
    simp [afterTransport, readerCalls, closeCalls, Event.isReadAll, Event.isClose]

/-- A status-200 response without a body, for C9. -/
theorem absent_body_returns_empty_witness :
    ((DoPost (stubClient (some ⟨200, none⟩, none) (some ⟨200, none⟩, none)
        (responseJson, none)) exampleURI expectedAction 0).outcome = Outcome.ret [] none ∧
      readerCalls (DoPost (stubClient (some ⟨200, none⟩, none) (some ⟨200, none⟩, none)
        (responseJson, none)) exampleURI expectedAction 0).trace = [] ∧
      closeCalls (DoPost (stubClient (some ⟨200, none⟩, none) (some ⟨200, none⟩, none)
        (responseJson, none)) exampleURI expectedAction 0).trace = []) ∧
    ((DoGet (stubClient (some ⟨200, none⟩, none) (some ⟨200, none⟩, none)
        (responseJson, none)) exampleURI 0).outcome = Outcome.ret [] none ∧
      readerCalls (DoGet (stubClient (some ⟨200, none⟩, none) (some ⟨200, none⟩, none)
        (responseJson, none)) exampleURI 0).trace = [] ∧
      closeCalls (DoGet (stubClient (some ⟨200, none⟩, none) (some ⟨200, none⟩, none)
        (responseJson, none)) exampleURI 0).trace = []) :=
  ⟨(absent_body_returns_empty (stubClient (some ⟨200, none⟩, none) (some ⟨200, none⟩, none)
      (responseJson, none)) exampleURI expectedAction 0 1).1 rfl,
    (absent_body_returns_empty (stubClient (some ⟨200, none⟩, none) (some ⟨200, none⟩, none)
      (responseJson, none)) exampleURI expectedAction 0 1).2 rfl⟩

/-- When the status is not 200 the call returns at line 59, before the `defer`
of line 63 is reached: the only call made is the transport call. -/
theorem status_rejected_trace {σ : Type} (a : ApiClient σ) (uri body : GoString) (w w1 : σ)
    (c : Int) (stream : Option ReadCloser) (hc : c ≠ 200)
    (hpost : a.httpClient.Post uri (goLit "application/json") body w =
      ((some ⟨c, stream⟩, none), w1)) :
    (DoPost a uri body w).trace = [Event.post uri (goLit "application/json") body] ∧
      (DoPost a uri body w).world = w1 := by
  rw [DoPost_eq, hpost]
  simp [afterTransport, hc]

/-- C8, evaluated on the code: `Post` answers with a nil error and a response
of status 500 with the body stream 7. The call returns the status error and its
only collaborator call is the `Post`: the stream is neither read nor closed. -/
theorem non200_body_never_closed :
    (DoPost (stubClient (some ⟨500, some 7⟩, none) (none, none) (responseJson, none))
        exampleURI expectedAction 0).outcome =
      Outcome.ret [] (some (errorsNew
        (goLit "apiclient: Received non-200 status code from api endpoint: 500"))) ∧
    (DoPost (stubClient (some ⟨500, some 7⟩, none) (none, none) (responseJson, none))
        exampleURI expectedAction 0).trace =
      [Event.post exampleURI (goLit "application/json") expectedAction] ∧
    closeCalls (DoPost (stubClient (some ⟨500, some 7⟩, none) (none, none) (responseJson, none))
        exampleURI expectedAction 0).trace = [] ∧
    closeCalls (DoPost (stubClient (some ⟨200, some 7⟩, none) (none, none) (responseJson, none))
        exampleURI expectedAction 0).trace = [Event.close 7] := by
  have h500 : (stubClient (some ⟨500, some 7⟩, none) (none, none)
      (responseJson, none)).httpClient.Post exampleURI (goLit "application/json")
      expectedAction 0 = ((some ⟨500, some 7⟩, none), 1) := rfl
  have h200 : (stubClient (some ⟨200, some 7⟩, none) (none, none)
      (responseJson, none)).httpClient.Post exampleURI (goLit "application/json")
      expectedAction 0 = ((some ⟨200, some 7⟩, none), 1) := rfl
  have hread : ((stubClient (some ⟨200, some 7⟩, none) (none, none)
      (responseJson, none)).bodyReader.ReadAll 7 1).1.2 = none := rfl
  refine ⟨?_, ?_, ?_, ?_⟩
  · rw [DoPost_eq, h500]
    simp [afterTransport, Sprintf_wrongStatus_500]
  · rw [DoPost_eq, h500]
    simp [afterTransport]
  · rw [DoPost_eq, h500]
    simp [afterTransport, closeCalls, Event.isClose]
  · rw [DoPost_eq, h200]
    simp [afterTransport, hread, closeCalls, Event.isClose]

/-! ## Nil responses -/

/-- With a method other than POST and GET no transport call is made and the
nil `resp` is dereferenced at line 56. -/
theorem doHTTP_other_method {σ : Type} (a : ApiClient σ) (uri method body : GoString) (w : σ)
    (hp : method ≠ MethodPost) (hg : method ≠ MethodGet) :
    doHTTP a uri method body w = ⟨Outcome.nilDeref, w, []⟩ := by
  simp [doHTTP, callTransport, hp, hg, afterTransport]

/-- A transport that answers with a nil response and a nil error makes the
call dereference nil at line 56. -/
theorem DoPost_nil_nil :
    (DoPost (stubClient (none, none) (none, none) (responseJson, none))
      exampleURI expectedAction 0).outcome = Outcome.nilDeref := by
  rw [DoPost_eq]
  rfl

/-- Lines 52-73 return whenever a nil error comes with a non-nil response. -/
theorem afterTransport_returns {σ : Type} (a : ApiClient σ) (resp : Option Response)
    (err : Option GoError) (w : σ) (tr : List Event) (h : err = none → resp ≠ none) :
    ∃ m e, (afterTransport a resp err w tr).outcome = Outcome.ret m e := by
  unfold afterTransport
  cases err with
  | some e => exact ⟨[], some e, rfl⟩
  | none =>
    cases resp with
    | none => exact absurd rfl (h rfl)
    | some r =>
      by_cases hs : r.StatusCode = 200
      · cases hb : r.Body with
        | none => exact ⟨[], none, by simp [hs, hb]⟩
        | some st =>
          cases hr : (a.bodyReader.ReadAll st w).1.2 with
          | none => exact ⟨stringOfBytes (a.bodyReader.ReadAll st w).1.1, none, by simp [hs, hb, hr]⟩
          | some re => exact ⟨[], some re, by simp [hs, hb, hr]⟩
      · exact ⟨[], some (errorsNew (Sprintf wrongStatusErrorFormat [r.StatusCode])),
          by simp [hs]⟩

/-- C10: if the transport never answers with a nil response next to a nil
error, then for every URI and body `DoPost` and `DoGet` return a pair
`(text, error)` (no nil response is dereferenced), and each of them makes
exactly one transport call: the method they pass is POST or GET, so the branch
of `doHTTP` without a transport call is not taken. Nothing is asked of the
response that comes with a non-nil error. -/
theorem DoPost_DoGet_always_return {σ : Type} (a : ApiClient σ)
    (hpost : ∀ uri ct body w, (a.httpClient.Post uri ct body w).1.2 = none →
      (a.httpClient.Post uri ct body w).1.1 ≠ none)
    (hget : ∀ uri w, (a.httpClient.Get uri w).1.2 = none →
      (a.httpClient.Get uri w).1.1 ≠ none)
    (uri body : GoString) (w : σ) :
    (∃ m e, (DoPost a uri body w).outcome = Outcome.ret m e) ∧
      (∃ m e, (DoGet a uri w).outcome = Outcome.ret m e) ∧
      (transportCalls (DoPost a uri body w).trace).length = 1 ∧
      (transportCalls (DoGet a uri w).trace).length = 1 := by
  refine ⟨?_, ?_, ?_, ?_⟩
  · rw [DoPost_eq]
    exact afterTransport_returns a _ _ _ _ (hpost uri _ body w)
  · rw [DoGet_eq]
    exact afterTransport_returns a _ _ _ _ (hget uri w)
  · rw [DoPost_eq, transportCalls_afterTransport]
    simp [transportCalls, Event.isTransport]
  · rw [DoGet_eq, transportCalls_afterTransport]
    simp [transportCalls, Event.isTransport]

/-- A transport whose `Post` answers with a status-200 response and whose `Get`
answers with a nil response next to an error, for C10. -/
theorem DoPost_DoGet_always_return_witness :
    (∀ (uri ct body : GoString) (w : Nat),
      ((stubClient (some ⟨200, some 7⟩, none) (none, some mockErr)
        (responseJson, none)).httpClient.Post uri ct body w).1.2 = none →
      ((stubClient (some ⟨200, some 7⟩, none) (none, some mockErr)
        (responseJson, none)).httpClient.Post uri ct body w).1.1 ≠ none) ∧
    (∀ (uri : GoString) (w : Nat),
      ((stubClient (some ⟨200, some 7⟩, none) (none, some mockErr)
        (responseJson, none)).httpClient.Get uri w).1.2 = none →
      ((stubClient (some ⟨200, some 7⟩, none) (none, some mockErr)
        (responseJson, none)).httpClient.Get uri w).1.1 ≠ none) ∧
    ((∃ m e, (DoPost (stubClient (some ⟨200, some 7⟩, none) (none, some mockErr)
        (responseJson, none)) exampleURI expectedAction 0).outcome = Outcome.ret m e) ∧
      (∃ m e, (DoGet (stubClient (some ⟨200, some 7⟩, none) (none, some mockErr)
        (responseJson, none)) exampleURI 0).outcome = Outcome.ret m e) ∧
      (transportCalls (DoPost (stubClient (some ⟨200, some 7⟩, none) (none, some mockErr)
        (responseJson, none)) exampleURI expectedAction 0).trace).length = 1 ∧
      (transportCalls (DoGet (stubClient (some ⟨200, some 7⟩, none) (none, some mockErr)
        (responseJson, none)) exampleURI 0).trace).length = 1) :=
  ⟨fun _ _ _ _ _ => Option.some_ne_none _,
    fun _ _ h => absurd h (Option.some_ne_none _),
    DoPost_DoGet_always_return
      (stubClient (some ⟨200, some 7⟩, none) (none, some mockErr) (responseJson, none))
      (fun _ _ _ _ _ => Option.some_ne_none _)
      (fun _ _ h => absurd h (Option.some_ne_none _))
      exampleURI expectedAction 0⟩

end httpclient
